import Mathlib

/-!
Verification development for the LuptonRGB PixInsight script
(src/LuptonRGB.js).  The pixel engine, the full-resolution execute
path, the auto-black-point estimator, the preview-update throttle and
the viewport zoom model are embedded shallowly over `ℚ`.

The script's transcendental `Math.asinh` (and its inline expansion
`ln(x + sqrt(x*x+1))` in the PixelMath expressions of `execute`) is
treated as an uninterpreted function parameter `asinh : ℚ → ℚ`:
every structural claim about the engine is proved for an arbitrary
such function, and concrete witnesses instantiate it with computable
test functions.
-/

namespace LuptonRGB

/-- Engine parameters, from the `LuptonEngine` constructor defaults
(src/LuptonRGB.js lines 60-68). -/
structure EngineParams where
  stretch : ℚ
  Q : ℚ
  blackPoint : ℚ
  blackR : ℚ
  blackG : ℚ
  blackB : ℚ
  linkedChannels : Bool
  saturation : ℚ
  clippingMode : ℕ
deriving DecidableEq, Repr

/-- The constructor defaults of `LuptonEngine` (lines 60-68). -/
def defaultParams : EngineParams :=
  { stretch := 5, Q := 8, blackPoint := 0, blackR := 0, blackG := 0, blackB := 0,
    linkedChannels := true, saturation := 1, clippingMode := 0 }

/-- The epsilon guard of `processPixel` and of `execute` (lines 100 and 261),
`1e-10` in the source. -/
def epsilon : ℚ := 1 / 10 ^ 10

/-- The arcsinh stretch function `F` (lines 77-82):
`val = x - minimum; if (val <= 0) return 0; return asinh(alpha*Q*val)/Q`. -/
def F (asinh : ℚ → ℚ) (x alpha Q minimum : ℚ) : ℚ :=
  let val := x - minimum
  if val ≤ 0 then 0 else asinh (alpha * Q * val) / Q

/-- Per-channel minimum for R (line 87). -/
def minR (p : EngineParams) : ℚ := if p.linkedChannels then p.blackPoint else p.blackR

/-- Per-channel minimum for G (line 88). -/
def minG (p : EngineParams) : ℚ := if p.linkedChannels then p.blackPoint else p.blackG

/-- Per-channel minimum for B (line 89). -/
def minB (p : EngineParams) : ℚ := if p.linkedChannels then p.blackPoint else p.blackB

/-- The single averaged minimum used for the intensity stretch (line 93). -/
def avgMinimum (p : EngineParams) : ℚ := (minR p + minG p + minB p) / 3

/-- Pixel intensity `I = (r+g+b)/3` (line 96). -/
def intensity (r g b : ℚ) : ℚ := (r + g + b) / 3

/-- The scale factor of `processPixel` (lines 99-105):
`scale = F(I)/(I - minimum)` when `I > minimum + epsilon`, else 0. -/
def pixelScale (asinh : ℚ → ℚ) (p : EngineParams) (r g b : ℚ) : ℚ :=
  if intensity r g b > avgMinimum p + epsilon then
    F asinh (intensity r g b) p.stretch p.Q (avgMinimum p) / (intensity r g b - avgMinimum p)
  else 0

/-- Step 3 of `processPixel` (lines 108-110): per-channel black point
subtraction followed by the shared scale. -/
def scaledTriple (asinh : ℚ → ℚ) (p : EngineParams) (r g b : ℚ) : ℚ × ℚ × ℚ :=
  ((r - minR p) * pixelScale asinh p r g b,
   (g - minG p) * pixelScale asinh p r g b,
   (b - minB p) * pixelScale asinh p r g b)

/-- Step 4 of `processPixel` (lines 113-119): saturation boost around the
mean, applied only when `|saturation - 1| > 1e-6`. -/
def applySaturation (sat : ℚ) (v : ℚ × ℚ × ℚ) : ℚ × ℚ × ℚ :=
  if 1 / 10 ^ 6 < |sat - 1| then
    let lum := (v.1 + v.2.1 + v.2.2) / 3
    (lum + (v.1 - lum) * sat, lum + (v.2.1 - lum) * sat, lum + (v.2.2 - lum) * sat)
  else v

/-- Step 5 of `processPixel` (lines 121-140): the clipping-mode switch.
Mode 0 preserves color, mode 1 hard-clips, every other mode (2, Rescale)
leaves the pixel unchanged at pixel level. -/
def applyClipping (mode : ℕ) (v : ℚ × ℚ × ℚ) : ℚ × ℚ × ℚ :=
  match mode with
  | 0 =>
    let m := max v.1 (max v.2.1 v.2.2)
    if 1 < m then (v.1 / m, v.2.1 / m, v.2.2 / m) else v
  | 1 => (min 1 (max 0 v.1), min 1 (max 0 v.2.1), min 1 (max 0 v.2.2))
  | _ => v

/-- The final negative clamp of `processPixel` (lines 143-145). -/
def clampNegatives (v : ℚ × ℚ × ℚ) : ℚ × ℚ × ℚ :=
  (max 0 v.1, max 0 v.2.1, max 0 v.2.2)

/-- `LuptonEngine.processPixel` (lines 85-148), assembled from its steps. -/
def processPixel (asinh : ℚ → ℚ) (p : EngineParams) (r g b : ℚ) : ℚ × ℚ × ℚ :=
  clampNegatives (applyClipping p.clippingMode
    (applySaturation p.saturation (scaledTriple asinh p r g b)))

/-! ### The full-resolution execute path (lines 195-372)

`execute` builds PixelMath expressions; their per-pixel value is embedded
below.  The expression string `ln(arg+sqrt(arg*arg+1))` (line 269) is the
logarithmic form of arcsinh and is modelled with the same uninterpreted
`asinh` parameter. -/

/-- The Q guard of `execute` (line 264): clamp `Q` to magnitude `0.01`,
preserving sign, when it is too close to zero. -/
def safeQ (q : ℚ) : ℚ :=
  if |q| < 1 / 100 then (if 0 ≤ q then 1 / 100 else -(1 / 100)) else q

/-- The per-pixel value of the `scale` PixelMath expression of `execute`
(lines 260-271), on a pixel with channel values `t0 t1 t2`. -/
def executeScale (asinh : ℚ → ℚ) (p : EngineParams) (t0 t1 t2 : ℚ) : ℚ :=
  let I := (t0 + t1 + t2) / 3
  let am := avgMinimum p
  if I > am + epsilon then
    asinh (p.stretch * safeQ p.Q * (I - am)) / safeQ p.Q / max epsilon (I - am)
  else 0

/-- The per-pixel value of the pass-1 PixelMath expressions of `execute`
(lines 279-281): `max(0, ($T[c] - min_c) * scale)`. -/
def executePass1Pixel (asinh : ℚ → ℚ) (p : EngineParams) (v : ℚ × ℚ × ℚ) : ℚ × ℚ × ℚ :=
  (max 0 ((v.1 - minR p) * executeScale asinh p v.1 v.2.1 v.2.2),
   max 0 ((v.2.1 - minG p) * executeScale asinh p v.1 v.2.1 v.2.2),
   max 0 ((v.2.2 - minB p) * executeScale asinh p v.1 v.2.1 v.2.2))

/-- The per-pixel value of the pass-3 PixelMath expressions of `execute`
(lines 312-345).  Mode 0 divides by the pixel maximum when it exceeds 1,
mode 1 hard-clips, and mode 2 (Rescale) uses the identity expressions
`$T[0]`, `$T[1]`, `$T[2]` — the actual normalization is delegated to the
host through the `rescale` flag. -/
def pass3Pixel (mode : ℕ) (v : ℚ × ℚ × ℚ) : ℚ × ℚ × ℚ :=
  match mode with
  | 0 =>
    let m := max v.1 (max v.2.1 v.2.2)
    let cs := if 1 < m then 1 / m else 1
    (max 0 (v.1 * cs), max 0 (v.2.1 * cs), max 0 (v.2.2 * cs))
  | 1 => (min 1 (max 0 v.1), min 1 (max 0 v.2.1), min 1 (max 0 v.2.2))
  | _ => v

/-- The `rescale` flag set on the pass-3 PixelMath instance per clipping
mode (lines 322, 332, 342). -/
def pass3RescaleFlag (mode : ℕ) : Bool :=
  match mode with
  | 0 => false
  | 1 => false
  | _ => true

/-- The `truncate` flag set on the pass-3 PixelMath instance per clipping
mode (lines 323, 333, 343): true in all three modes. -/
def pass3TruncateFlag (_ : ℕ) : Bool := true

/-- The script-side action of pass 3 on a whole image, as a list of RGB
triples: the PixelMath expressions applied pixel by pixel. -/
def executePass3Image (mode : ℕ) (img : List (ℚ × ℚ × ℚ)) : List (ℚ × ℚ × ℚ) :=
  img.map (pass3Pixel mode)

/-- The global maximum channel value over an image. -/
def globalMax (img : List (ℚ × ℚ × ℚ)) : ℚ :=
  img.foldr (fun v acc => max v.1 (max v.2.1 (max v.2.2 acc))) 0

/-- The Rescale pass as the spec words it (an image-level second traversal
dividing every channel of every pixel by the tracked global maximum when
it exceeds 1).  This definition follows the spec, not the source, and only
serves to compare the claimed behavior with the embedded code. -/
def specRescalePass (img : List (ℚ × ℚ × ℚ)) : List (ℚ × ℚ × ℚ) :=
  let M := globalMax img
  if 1 < M then img.map (fun v => (v.1 / M, v.2.1 / M, v.2.2 / M)) else img

/-! ### Control flow of `execute` (lines 195-372)

The channel-count precondition, the output-window allocation, the three
PixelMath passes, the `show()` on success and the `forceClose()` in the
catch block are modelled as an event trace.  The success of each
`PixelMath.executeOn` call is an environment oracle; a `false` result
makes `execute` throw (lines 288-289, 307-308, 349-350), landing in the
catch block (lines 363-371). -/

/-- Observable actions of `execute` on the host. -/
inductive ExecEvent where
  | allocOutput
  | copySource
  | pass1
  | pass2
  | pass3
  | showWindow
  | closeWindow
deriving DecidableEq, Repr

/-- Environment of one `execute` run: the source channel count and the
success of each PixelMath pass. -/
structure ExecEnv where
  channels : ℕ
  pass1Ok : Bool
  pass2Ok : Bool
  pass3Ok : Bool
deriving DecidableEq, Repr

/-- Whether `execute` runs the saturation pass 2 (line 292):
`|saturation - 1| > 1e-6`. -/
def needSat (p : EngineParams) : Prop := 1 / 10 ^ 6 < |p.saturation - 1|

instance (p : EngineParams) : Decidable (needSat p) := by
  unfold needSat; infer_instance

/-- The control flow of `LuptonEngine.execute` (lines 195-372): the event
trace on the host and whether a window is returned (`false` models the
`return null` paths). -/
def executeRun (env : ExecEnv) (p : EngineParams) : List ExecEvent × Bool :=
  if env.channels < 3 then ([], false)
  else if env.pass1Ok = false then
    ([.allocOutput, .copySource, .pass1, .closeWindow], false)
  else if needSat p then
    if env.pass2Ok = false then
      ([.allocOutput, .copySource, .pass1, .pass2, .closeWindow], false)
    else if env.pass3Ok = false then
      ([.allocOutput, .copySource, .pass1, .pass2, .pass3, .closeWindow], false)
    else
      ([.allocOutput, .copySource, .pass1, .pass2, .pass3, .showWindow], true)
  else if env.pass3Ok = false then
    ([.allocOutput, .copySource, .pass1, .pass3, .closeWindow], false)
  else
    ([.allocOutput, .copySource, .pass1, .pass3, .showWindow], true)

/-! ### Auto black point (lines 151-192)

`image.sample` may throw; it is modelled as an `Option`-valued accessor,
and a failed sample makes the whole collection fail, which the catch
block (lines 187-191) turns into the result 0. -/

/-- Sampling stride (line 161): `max(1, floor(sqrt(w*h/10000)))`.
`Nat.sqrt` is the floor of the real square root, and
`⌊√⌊x⌋⌋ = ⌊√x⌋`, so flooring the quotient first is exact. -/
def sampleStep (w h : ℕ) : ℕ := max 1 (Nat.sqrt (w * h / 10000))

/-- The coordinates visited by `for (v = 0; v < n; v += step)`. -/
def gridPoints (n step : ℕ) : List ℕ :=
  (List.range ((n + step - 1) / step)).map (fun k => k * step)

/-- The sample collection loop (lines 160-169): rows outer, columns inner;
any failing sample aborts the whole collection. -/
def collectSamples (sample : ℕ → ℕ → Option ℚ) (w h : ℕ) : Option (List ℚ) :=
  let step := sampleStep w h
  (((gridPoints h step).map fun y => (gridPoints w step).map fun x => (x, y)).flatten).mapM
    fun xy => sample xy.1 xy.2

/-- Ascending sort (line 175, comparator `a - b`). -/
def sortAsc (l : List ℚ) : List ℚ := l.insertionSort (· ≤ ·)

/-- The estimate computed from the collected samples (lines 171-191):
`none` models the caught exception path (return 0), zero samples return 0,
otherwise the lowest `max(10, floor(0.05*n))` sorted samples give the
median whose 0.9 multiple is floored at 0. -/
def autoBlackFromSamples : Option (List ℚ) → ℚ
  | none => 0
  | some samples =>
    if samples.length = 0 then 0
    else
      let sorted := sortAsc samples
      let lowSamples := sorted.take (max 10 (samples.length * 5 / 100))
      let medianIdx := lowSamples.length / 2
      let median := lowSamples.getD medianIdx 0
      max 0 (median * (9 / 10))

/-- `LuptonEngine.calculateAutoBlackPoint` (lines 151-192) for one channel,
with the channel accessor abstracted. -/
def calculateAutoBlackPoint (sample : ℕ → ℕ → Option ℚ) (w h : ℕ) : ℚ :=
  autoBlackFromSamples (collectSamples sample w h)

/-! ### Preview-update throttling (lines 1620-1660) -/

/-- Throttling state of the dialog (lines 1621-1622). -/
structure SchedState where
  lastPreviewTime : ℤ
  previewSkipCount : ℕ
deriving DecidableEq, Repr

/-- `LuptonDialog.schedulePreviewUpdate` (lines 1624-1649): returns the new
throttling state and whether the preview was rendered. -/
def schedulePreviewUpdate (checked : Bool) (s : SchedState) (now : ℤ) : SchedState × Bool :=
  if checked = false then (s, false)
  else if now - s.lastPreviewTime < 80 ∧ s.previewSkipCount + 1 < 4 then
    ({ s with previewSkipCount := s.previewSkipCount + 1 }, false)
  else
    ({ lastPreviewTime := now, previewSkipCount := 0 }, true)

/-- `LuptonDialog.forcePreviewUpdate` (lines 1652-1660): bypasses
throttling, resets both counters and always renders. -/
def forcePreviewUpdate (_ : SchedState) : SchedState × Bool :=
  ({ lastPreviewTime := 0, previewSkipCount := 0 }, true)

/-! ### Viewport zoom model of `PreviewControl` (lines 567-942)

Only the zoom-related state (`zoom`, `scale`, `zoomOutLimit`, and whether
a scaled image exists for the early-return check of `UpdateZoom`) is
modelled; scroll positions do not affect the claimed invariant. -/

/-- Zoom-related state of `PreviewControl` (lines 581-587). -/
structure ViewportState where
  zoom : ℤ
  scale : ℚ
  zoomOutLimit : ℤ
  hasScaledImage : Bool
deriving DecidableEq, Repr

/-- The zoom-level to scale mapping of `UpdateZoom` (lines 819-822). -/
def scaleOfZoom (z : ℤ) : ℚ := if 0 < z then (z : ℚ) else 1 / (-(z : ℚ) + 2)

/-- Ceiling division on naturals, `Math.ceil(a / b)` for positive `b`. -/
def ceilDivNat (a b : ℕ) : ℕ := (a + b - 1) / b

/-- `PreviewControl.SetZoomOutLimit` (lines 789-797):
`zoomOutLimit = min(0, -max(ceil(imgW/vpW), ceil(imgH/vpH)) + 2)`. -/
def setZoomOutLimit (imgW imgH vpW vpH : ℕ) (s : ViewportState) : ViewportState :=
  { s with zoomOutLimit := min 0 (-(max (ceilDivNat imgW vpW) (ceilDivNat imgH vpH) : ℤ) + 2) }

/-- `PreviewControl.UpdateZoom` (lines 800-840), restricted to the zoom
state: clamp to `[zoomOutLimit, 2]`, return early when the clamped level
equals the current one and a scaled image exists, otherwise set the zoom
and recompute the scale (and regenerate the scaled image). -/
def updateZoomState (s : ViewportState) (newZoom : ℤ) : ViewportState :=
  let nz := max s.zoomOutLimit (min 2 newZoom)
  if nz = s.zoom ∧ s.hasScaledImage = true then s
  else { s with zoom := nz, scale := scaleOfZoom nz, hasScaledImage := true }

/-- The viewport `onResize` handler (lines 767-774): recompute the zoom-out
limit, snap the zoom up to it when it fell below. -/
def onResizeState (imgW imgH vpW vpH : ℕ) (s : ViewportState) : ViewportState :=
  let s1 := setZoomOutLimit imgW imgH vpW vpH s
  if s1.zoom < s1.zoomOutLimit then updateZoomState s1 s1.zoomOutLimit else s1

/-- `PreviewControl.updatePreview` (lines 872-894), restricted to the zoom
state: with a source attached and a non-empty viewport it recomputes the
zoom-out limit and regenerates the scaled image, leaving `zoom` as it is. -/
def updatePreviewState (imgW imgH vpW vpH : ℕ) (s : ViewportState) : ViewportState :=
  if vpW = 0 ∨ vpH = 0 then s
  else { setZoomOutLimit imgW imgH vpW vpH s with hasScaledImage := true }

/-- The claimed viewport invariant (spec §3 ViewportState):
`zoomOutLimit ≤ zoom ≤ 2` with the derived scale. -/
def viewportInv (s : ViewportState) : Prop :=
  s.zoomOutLimit ≤ s.zoom ∧ s.zoom ≤ 2 ∧ s.scale = scaleOfZoom s.zoom

instance (s : ViewportState) : Decidable (viewportInv s) := by
  unfold viewportInv; infer_instance

/-! ### Claims about the pixel engine -/

/-- C1: for every pixel `(r,g,b)` and every parameter setting,
`processPixel` resolves the per-channel minimums (all three equal to
`blackPoint` when linked, otherwise `blackR/blackG/blackB`), computes
`minimum = (minR+minG+minB)/3` and `I = (r+g+b)/3`, sets
`scale = (asinh(alpha*Q*(I-minimum))/Q) / (I-minimum)` when
`I > minimum + 1e-10` and `scale = 0` otherwise, and the pre-clip output
of each channel is `(c - min_c) * scale`, each channel subtracting its
own minimum while all three share the single scale computed from the
averaged minimum. -/
theorem C1_processPixel_formula (asinh : ℚ → ℚ) (p : EngineParams) (r g b : ℚ) :
    minR p = (if p.linkedChannels then p.blackPoint else p.blackR) ∧
    minG p = (if p.linkedChannels then p.blackPoint else p.blackG) ∧
    minB p = (if p.linkedChannels then p.blackPoint else p.blackB) ∧
    avgMinimum p = (minR p + minG p + minB p) / 3 ∧
    intensity r g b = (r + g + b) / 3 ∧
    pixelScale asinh p r g b =
      (if intensity r g b > avgMinimum p + 1 / 10 ^ 10 then
        asinh (p.stretch * p.Q * (intensity r g b - avgMinimum p)) / p.Q /
          (intensity r g b - avgMinimum p)
      else 0) ∧
    scaledTriple asinh p r g b =
      ((r - minR p) * pixelScale asinh p r g b,
       (g - minG p) * pixelScale asinh p r g b,
       (b - minB p) * pixelScale asinh p r g b) ∧
    processPixel asinh p r g b =
      clampNegatives (applyClipping p.clippingMode
        (applySaturation p.saturation (scaledTriple asinh p r g b))) := by
  refine ⟨rfl, rfl, rfl, rfl, rfl, ?_, rfl, rfl⟩
  unfold pixelScale epsilon
  split_ifs with h
  · have hv : ¬ (intensity r g b - avgMinimum p ≤ 0) := by
      have hε : (0 : ℚ) < 1 / 10 ^ 10 := by norm_num
      push_neg
      linarith
    simp only [F, if_neg hv]
  · rfl

/-- C2: in PreserveColor mode, whenever the pre-clip pixel maximum `m`
exceeds 1, the clipping step divides all three channels by `m`, so the
post-clip channel ratios equal the pre-clip ratios and the post-clip
maximum is exactly 1. -/
theorem C2_preserveColor_ratios (x y z : ℚ) (hm : 1 < max x (max y z)) :
    applyClipping 0 (x, y, z) =
      (x / max x (max y z), y / max x (max y z), z / max x (max y z)) ∧
    (applyClipping 0 (x, y, z)).1 * y = x * (applyClipping 0 (x, y, z)).2.1 ∧
    (applyClipping 0 (x, y, z)).2.1 * z = y * (applyClipping 0 (x, y, z)).2.2 ∧
    (applyClipping 0 (x, y, z)).1 * z = x * (applyClipping 0 (x, y, z)).2.2 ∧
    max (applyClipping 0 (x, y, z)).1
      (max (applyClipping 0 (x, y, z)).2.1 (applyClipping 0 (x, y, z)).2.2) = 1 := by
  have hm0 : (0 : ℚ) < max x (max y z) := lt_trans one_pos hm
  have hclip : applyClipping 0 (x, y, z) =
      (x / max x (max y z), y / max x (max y z), z / max x (max y z)) := by
    simp only [applyClipping, if_pos hm]
  refine ⟨hclip, ?_, ?_, ?_, ?_⟩ <;> rw [hclip]
  · field_simp
  · field_simp
  · field_simp
  · rw [max_div_div_right hm0.le, max_div_div_right hm0.le,
      div_eq_one_iff_eq (ne_of_gt hm0)]

/-- Witness for C2 at the concrete pre-clip pixel `(2, 1, 1/2)`. -/
theorem C2_witness :
    applyClipping 0 ((2 : ℚ), 1, 1 / 2) = (1, 1 / 2, 1 / 4) ∧
    max (applyClipping 0 ((2 : ℚ), 1, 1 / 2)).1
      (max (applyClipping 0 ((2 : ℚ), 1, 1 / 2)).2.1
        (applyClipping 0 ((2 : ℚ), 1, 1 / 2)).2.2) = 1 := by
  have h := C2_preserveColor_ratios 2 1 (1 / 2) (by norm_num)
  refine ⟨?_, h.2.2.2.2⟩
  rw [h.1]
  norm_num

/-- Each component of `clampNegatives` is nonnegative. -/
theorem clampNegatives_nonneg (v : ℚ × ℚ × ℚ) :
    0 ≤ (clampNegatives v).1 ∧ 0 ≤ (clampNegatives v).2.1 ∧ 0 ≤ (clampNegatives v).2.2 :=
  ⟨le_max_left 0 _, le_max_left 0 _, le_max_left 0 _⟩

/-- After the PreserveColor clip, every component is at most the larger of
1 and nothing: concretely, each clipped-then-clamped component is `≤ 1`. -/
theorem preserveColor_le_one (v : ℚ × ℚ × ℚ) :
    (clampNegatives (applyClipping 0 v)).1 ≤ 1 ∧
    (clampNegatives (applyClipping 0 v)).2.1 ≤ 1 ∧
    (clampNegatives (applyClipping 0 v)).2.2 ≤ 1 := by
  obtain ⟨x, y, z⟩ := v
  set m := max x (max y z) with hmdef
  have hxm : x ≤ m := le_max_left _ _
  have hym : y ≤ m := le_trans (le_max_left _ _) (le_max_right _ _)
  have hzm : z ≤ m := le_trans (le_max_right _ _) (le_max_right _ _)
  by_cases hm : 1 < m
  · have hm0 : (0 : ℚ) < m := lt_trans one_pos hm
    have hclip : applyClipping 0 (x, y, z) = (x / m, y / m, z / m) := by
      simp only [applyClipping, ← hmdef, if_pos hm]
    rw [hclip]
    exact ⟨max_le one_pos.le ((div_le_one hm0).mpr hxm),
      max_le one_pos.le ((div_le_one hm0).mpr hym),
      max_le one_pos.le ((div_le_one hm0).mpr hzm)⟩
  · have hclip : applyClipping 0 (x, y, z) = (x, y, z) := by
      simp only [applyClipping, ← hmdef, if_neg hm]
    rw [hclip]
    push_neg at hm
    exact ⟨max_le one_pos.le (le_trans hxm hm),
      max_le one_pos.le (le_trans hym hm),
      max_le one_pos.le (le_trans hzm hm)⟩

/-- After the HardClip step, every clamped component is at most 1. -/
theorem hardClip_le_one (v : ℚ × ℚ × ℚ) :
    (clampNegatives (applyClipping 1 v)).1 ≤ 1 ∧
    (clampNegatives (applyClipping 1 v)).2.1 ≤ 1 ∧
    (clampNegatives (applyClipping 1 v)).2.2 ≤ 1 := by
  obtain ⟨x, y, z⟩ := v
  refine ⟨?_, ?_, ?_⟩ <;>
    exact max_le one_pos.le (min_le_left _ _)

/-- C10: every component returned by `processPixel` is nonnegative in all
three clipping modes; in PreserveColor (0) and HardClip (1) modes every
component is additionally at most 1; and only Rescale mode (2) can return
a component exceeding 1, which it does on a concrete input. -/
theorem C10_output_bounds (asinh : ℚ → ℚ) (p : EngineParams) (r g b : ℚ) :
    (0 ≤ (processPixel asinh p r g b).1 ∧
     0 ≤ (processPixel asinh p r g b).2.1 ∧
     0 ≤ (processPixel asinh p r g b).2.2) ∧
    (p.clippingMode = 0 ∨ p.clippingMode = 1 →
      (processPixel asinh p r g b).1 ≤ 1 ∧
      (processPixel asinh p r g b).2.1 ≤ 1 ∧
      (processPixel asinh p r g b).2.2 ≤ 1) ∧
    (∃ f q rr gg bb, q.clippingMode = 2 ∧ 1 < (processPixel f q rr gg bb).1) := by
  refine ⟨clampNegatives_nonneg _, ?_, ?_⟩
  · intro hmode
    rcases hmode with h0 | h1
    · unfold processPixel
      rw [h0]
      exact preserveColor_le_one _
    · unfold processPixel
      rw [h1]
      exact hardClip_le_one _
  · refine ⟨fun x => x, ⟨2, 1, 0, 0, 0, 0, true, 1, 2⟩, 1, 1, 1, rfl, ?_⟩
    norm_num [processPixel, clampNegatives, applyClipping, applySaturation,
      scaledTriple, pixelScale, intensity, avgMinimum, minR, minG, minB, F, epsilon]

/-- Witness for C10 in each of the three clipping modes, with
`asinh` instantiated by the identity. -/
theorem C10_witness :
    (0 ≤ (processPixel (fun x => x) defaultParams (1 / 2) (1 / 4) 0).1 ∧
      (processPixel (fun x => x) defaultParams (1 / 2) (1 / 4) 0).1 ≤ 1) ∧
    (processPixel (fun x => x) { defaultParams with clippingMode := 1 } 2 0 0).1 ≤ 1 := by
  have h0 := C10_output_bounds (fun x => x) defaultParams (1 / 2) (1 / 4) 0
  have h1 := C10_output_bounds (fun x => x) { defaultParams with clippingMode := 1 } 2 0 0
  exact ⟨⟨h0.1.1, (h0.2.1 (Or.inl rfl)).1⟩, (h1.2.1 (Or.inr rfl)).1⟩

/-- C3 counterexample: `processPixel` does not clamp `Q`.  With the test
instantiation `asinh = fun x => min x 1` (nonlinear, as the real arcsinh
is), parameters with `Q = 1/1000` and the all-ones pixel, the output
differs from the output obtained after replacing `Q` by its clamped value
`safeQ Q = 1/100`; the preview path divides by the unclamped `Q`. -/
theorem C3_counterexample :
    safeQ (1 / 1000 : ℚ) = 1 / 100 ∧
    processPixel (fun x => min x 1) ⟨200, 1 / 1000, 0, 0, 0, 0, true, 1, 2⟩ 1 1 1 =
      (200, 200, 200) ∧
    processPixel (fun x => min x 1) ⟨200, 1 / 100, 0, 0, 0, 0, true, 1, 2⟩ 1 1 1 =
      (100, 100, 100) ∧
    processPixel (fun x => min x 1) ⟨200, 1 / 1000, 0, 0, 0, 0, true, 1, 2⟩ 1 1 1 ≠
      processPixel (fun x => min x 1) ⟨200, safeQ (1 / 1000), 0, 0, 0, 0, true, 1, 2⟩ 1 1 1 := by
  have hq : safeQ (1 / 1000 : ℚ) = 1 / 100 := by
    unfold safeQ
    rw [abs_of_nonneg (by norm_num : (0 : ℚ) ≤ 1 / 1000)]
    norm_num
  have h1 : processPixel (fun x => min x 1) ⟨200, 1 / 1000, 0, 0, 0, 0, true, 1, 2⟩ 1 1 1 =
      (200, 200, 200) := by
    norm_num [processPixel, clampNegatives, applyClipping, applySaturation,
      scaledTriple, pixelScale, intensity, avgMinimum, minR, minG, minB, F, epsilon,
      min_def, max_def]
  have h2 : processPixel (fun x => min x 1) ⟨200, 1 / 100, 0, 0, 0, 0, true, 1, 2⟩ 1 1 1 =
      (100, 100, 100) := by
    norm_num [processPixel, clampNegatives, applyClipping, applySaturation,
      scaledTriple, pixelScale, intensity, avgMinimum, minR, minG, minB, F, epsilon,
      min_def, max_def]
  refine ⟨hq, h1, h2, ?_⟩
  rw [hq, h1, h2]
  norm_num

/-- C3 amended: the Q guard exists only on the full-resolution execute
path.  `safeQ` always has magnitude at least `0.01` and preserves the
sign of `Q`, and the `executeScale` expression divides by `safeQ Q`,
while the per-pixel `pixelScale` of `processPixel` (the preview path)
divides by the raw, unclamped `Q`. -/
theorem C3_safeQ_clamped (q : ℚ) (asinh : ℚ → ℚ) (p : EngineParams) (t0 t1 t2 r g b : ℚ) :
    1 / 100 ≤ |safeQ q| ∧
    (0 ≤ q → 0 < safeQ q) ∧
    (q < 0 → safeQ q < 0) ∧
    executeScale asinh p t0 t1 t2 =
      (if (t0 + t1 + t2) / 3 > avgMinimum p + 1 / 10 ^ 10 then
        asinh (p.stretch * safeQ p.Q * ((t0 + t1 + t2) / 3 - avgMinimum p)) / safeQ p.Q /
          max (1 / 10 ^ 10) ((t0 + t1 + t2) / 3 - avgMinimum p)
      else 0) ∧
    pixelScale asinh p r g b =
      (if (r + g + b) / 3 > avgMinimum p + 1 / 10 ^ 10 then
        asinh (p.stretch * p.Q * ((r + g + b) / 3 - avgMinimum p)) / p.Q /
          ((r + g + b) / 3 - avgMinimum p)
      else 0) := by
  refine ⟨?_, ?_, ?_, rfl, ?_⟩
  · unfold safeQ
    by_cases h1 : |q| < 1 / 100
    · rw [if_pos h1]
      by_cases h2 : 0 ≤ q
      · rw [if_pos h2, abs_of_nonneg (by norm_num : (0 : ℚ) ≤ 1 / 100)]
      · rw [if_neg h2, abs_neg, abs_of_nonneg (by norm_num : (0 : ℚ) ≤ 1 / 100)]
    · rw [if_neg h1]
      exact le_of_not_lt h1
  · intro hq
    unfold safeQ
    by_cases h1 : |q| < 1 / 100
    · rw [if_pos h1, if_pos hq]
      norm_num
    · rw [if_neg h1]
      rcases eq_or_lt_of_le hq with h | h
      · exfalso
        apply h1
        rw [← h]
        norm_num
      · exact h
  · intro hq
    unfold safeQ
    by_cases h1 : |q| < 1 / 100
    · rw [if_pos h1, if_neg (not_le_of_lt hq)]
      norm_num
    · rw [if_neg h1]
      exact hq
  · simp only [pixelScale, epsilon, intensity]
    split_ifs with h
    · have hv : ¬ ((r + g + b) / 3 - avgMinimum p ≤ 0) := by
        push_neg
        have hε : (0 : ℚ) < 1 / 10 ^ 10 := by norm_num
        linarith
      simp only [F, if_neg hv]
    · rfl

/-- Witness for the amended C3 at `q = 1/1000`. -/
theorem C3_witness :
    (1 : ℚ) / 100 ≤ |safeQ (1 / 1000)| ∧ 0 < safeQ (1 / 1000 : ℚ) := by
  have h := C3_safeQ_clamped (1 / 1000) (fun x => x) defaultParams 0 0 0 0 0 0
  exact ⟨h.1, h.2.1 (by norm_num)⟩

/-- C4: `execute` on a source with fewer than 3 channels fails before
allocating any output image: the run produces the empty event trace
(in particular no allocation and no shown window) and returns null. -/
theorem C4_invalid_input (env : ExecEnv) (p : EngineParams) (hch : env.channels < 3) :
    executeRun env p = ([], false) ∧
    ExecEvent.allocOutput ∉ (executeRun env p).1 ∧
    ExecEvent.showWindow ∉ (executeRun env p).1 := by
  have h : executeRun env p = ([], false) := by
    unfold executeRun
    rw [if_pos hch]
  refine ⟨h, ?_, ?_⟩ <;> rw [h] <;> simp

/-- Witness for C4 on a 2-channel source. -/
theorem C4_witness : executeRun ⟨2, true, true, true⟩ defaultParams = ([], false) :=
  (C4_invalid_input ⟨2, true, true, true⟩ defaultParams (by norm_num)).1

/-- C6: when the channel precondition holds but some executed PixelMath
pass fails (the modelled exception), `execute` returns null, the output
window is force-closed and never shown; and conversely a successful run
shows the window and never closes it. -/
theorem C6_partial_failure (env : ExecEnv) (p : EngineParams)
    (hch : 3 ≤ env.channels)
    (hfail : ¬(env.pass1Ok = true ∧ (needSat p → env.pass2Ok = true) ∧ env.pass3Ok = true)) :
    (executeRun env p).2 = false ∧
    ExecEvent.closeWindow ∈ (executeRun env p).1 ∧
    ExecEvent.showWindow ∉ (executeRun env p).1 := by
  obtain ⟨ch, p1, p2, p3⟩ := env
  have hif : (ch < 3) = False := by
    simp only at hch
    simp only [eq_iff_iff, iff_false]
    omega
  by_cases hs : needSat p
  · cases p1
    · simp [executeRun, hif, hs]
    · cases p2
      · simp [executeRun, hif, hs]
      · cases p3
        · simp [executeRun, hif, hs]
        · exact absurd ⟨rfl, fun _ => rfl, rfl⟩ hfail
  · cases p1
    · simp [executeRun, hif, hs]
    · cases p3
      · simp [executeRun, hif, hs]
      · exact absurd ⟨rfl, fun hns => absurd hns hs, rfl⟩ hfail

/-- Witness for C6: pass 1 fails on a 3-channel source. -/
theorem C6_witness :
    (executeRun ⟨3, false, true, true⟩ defaultParams).2 = false ∧
    ExecEvent.closeWindow ∈ (executeRun ⟨3, false, true, true⟩ defaultParams).1 ∧
    ExecEvent.showWindow ∉ (executeRun ⟨3, false, true, true⟩ defaultParams).1 :=
  C6_partial_failure ⟨3, false, true, true⟩ defaultParams (by norm_num)
    (by simp)

/-- C5 counterexample: in Rescale mode the script-side second pass does
not divide by the tracked global maximum.  On the one-pixel image
`[(2,0,0)]` the claimed pass yields `[(1,0,0)]`, while the pass-3
expressions of `execute` are the identity, so the script-side result
keeps maximum 2. -/
theorem C5_counterexample :
    executePass3Image 2 [(2, 0, 0)] = [(2, 0, 0)] ∧
    specRescalePass [(2, 0, 0)] = [(1, 0, 0)] ∧
    executePass3Image 2 [(2, 0, 0)] ≠ specRescalePass [(2, 0, 0)] ∧
    globalMax (executePass3Image 2 [(2, 0, 0)]) ≠ 1 := by
  have h1 : executePass3Image 2 [((2 : ℚ), (0 : ℚ), (0 : ℚ))] = [(2, 0, 0)] := rfl
  have h2 : specRescalePass [((2 : ℚ), (0 : ℚ), (0 : ℚ))] = [(1, 0, 0)] := by
    norm_num [specRescalePass, globalMax, max_def]
  refine ⟨h1, h2, ?_, ?_⟩
  · rw [h1, h2]
    norm_num
  · rw [h1]
    norm_num [globalMax, max_def]

/-- C5 amended: in Rescale mode, `execute` does not itself traverse the
image dividing by a tracked global maximum; its third PixelMath pass uses
the identity expressions and sets `rescale = true` and `truncate = true`,
delegating image-level normalization to the host's PixelMath, while the
PreserveColor and HardClip passes keep `rescale = false`. -/
theorem C5_rescale_delegated (v : ℚ × ℚ × ℚ) (img : List (ℚ × ℚ × ℚ)) :
    pass3Pixel 2 v = v ∧
    executePass3Image 2 img = img ∧
    pass3RescaleFlag 2 = true ∧
    pass3TruncateFlag 2 = true ∧
    pass3RescaleFlag 0 = false ∧
    pass3RescaleFlag 1 = false := by
  refine ⟨rfl, ?_, rfl, rfl, rfl, rfl⟩
  have h : pass3Pixel 2 = fun w => w := rfl
  rw [executePass3Image, h, List.map_id']

/-- C7: `calculateAutoBlackPoint` returns 0 when sampling fails (the
caught exception) or yields no samples; otherwise it returns
`max(0, 0.9 * m)` where `m` is the middle element of the lowest
`max(10, floor(0.05 * n))` of the `n` ascending-sorted samples; the
sampling stride is `max(1, floor(sqrt(w*h/10000)))`; and the result is
nonnegative in every case. -/
theorem C7_autoBlackPoint (sample : ℕ → ℕ → Option ℚ) (w h : ℕ) :
    0 ≤ calculateAutoBlackPoint sample w h ∧
    (collectSamples sample w h = none → calculateAutoBlackPoint sample w h = 0) ∧
    (collectSamples sample w h = some [] → calculateAutoBlackPoint sample w h = 0) ∧
    (∀ l : List ℚ, collectSamples sample w h = some l → l ≠ [] →
      List.Sorted (· ≤ ·) (sortAsc l) ∧ (sortAsc l).Perm l ∧
      calculateAutoBlackPoint sample w h =
        max 0 (((sortAsc l).take (max 10 (l.length * 5 / 100))).getD
          (((sortAsc l).take (max 10 (l.length * 5 / 100))).length / 2) 0 * (9 / 10))) ∧
    sampleStep w h = max 1 (Nat.sqrt (w * h / 10000)) := by
  refine ⟨?_, ?_, ?_, ?_, rfl⟩
  · unfold calculateAutoBlackPoint
    cases collectSamples sample w h with
    | none => exact le_refl 0
    | some l =>
      simp only [autoBlackFromSamples]
      by_cases hl : l.length = 0
      · rw [if_pos hl]
      · rw [if_neg hl]
        exact le_max_left 0 _
  · intro hc
    unfold calculateAutoBlackPoint
    rw [hc]
    rfl
  · intro hc
    unfold calculateAutoBlackPoint
    rw [hc]
    rfl
  · intro l hc hne
    refine ⟨List.sorted_insertionSort _ l, List.perm_insertionSort _ l, ?_⟩
    unfold calculateAutoBlackPoint
    rw [hc]
    simp only [autoBlackFromSamples]
    rw [if_neg (by simpa [List.length_eq_zero] using hne)]

/-- Witness for C7 on a concrete 1x1 sampler. -/
theorem C7_witness :
    calculateAutoBlackPoint (fun _ _ => some (1 / 2)) 1 1 = 9 / 20 ∧
    0 ≤ calculateAutoBlackPoint (fun _ _ => some (1 / 2)) 1 1 := by
  have h := C7_autoBlackPoint (fun _ _ => some (1 / 2)) 1 1
  have hc : collectSamples (fun _ _ => some ((1 : ℚ) / 2)) 1 1 = some [1 / 2] := by
    norm_num [collectSamples, gridPoints, sampleStep, List.mapM.loop, Nat.sqrt]
  have hmain := (h.2.2.2.1 [1 / 2] hc (by simp)).2.2
  refine ⟨?_, h.1⟩
  rw [hmain]
  norm_num [sortAsc, List.insertionSort, List.orderedInsert]

/-- Auxiliary: a skipped (non-rendering) enabled notification increments
the skip counter and is only possible while the incremented counter is
still below the bound 4. -/
theorem sched_skip_step (s : SchedState) (t : ℤ)
    (hf : (schedulePreviewUpdate true s t).2 = false) :
    (schedulePreviewUpdate true s t).1.previewSkipCount = s.previewSkipCount + 1 ∧
    s.previewSkipCount + 1 < 4 := by
  by_cases hcond : t - s.lastPreviewTime < 80 ∧ s.previewSkipCount + 1 < 4
  · constructor
    · simp [schedulePreviewUpdate, hcond]
    · exact hcond.2
  · exfalso
    simp [schedulePreviewUpdate, hcond] at hf

/-- C8: with preview enabled, a notification at least 80ms after the last
run renders immediately and resets the timer; under the window it
increments the skip counter and skips while the incremented counter is
below 4, and once the counter reaches 4 it renders anyway and resets
both; consequently among any four consecutive enabled notifications at
least one renders, so there are never more than 3 consecutive skips. -/
theorem C8_throttle (s : SchedState) (now t1 t2 t3 t4 : ℤ) :
    (80 ≤ now - s.lastPreviewTime →
      schedulePreviewUpdate true s now = (⟨now, 0⟩, true)) ∧
    (now - s.lastPreviewTime < 80 → s.previewSkipCount + 1 < 4 →
      schedulePreviewUpdate true s now =
        (⟨s.lastPreviewTime, s.previewSkipCount + 1⟩, false)) ∧
    (now - s.lastPreviewTime < 80 → 4 ≤ s.previewSkipCount + 1 →
      schedulePreviewUpdate true s now = (⟨now, 0⟩, true)) ∧
    ((schedulePreviewUpdate true s t1).2 = true ∨
      (schedulePreviewUpdate true (schedulePreviewUpdate true s t1).1 t2).2 = true ∨
      (schedulePreviewUpdate true (schedulePreviewUpdate true
        (schedulePreviewUpdate true s t1).1 t2).1 t3).2 = true ∨
      (schedulePreviewUpdate true (schedulePreviewUpdate true (schedulePreviewUpdate true
        (schedulePreviewUpdate true s t1).1 t2).1 t3).1 t4).2 = true) := by
  refine ⟨?_, ?_, ?_, ?_⟩
  · intro h80
    have hcond : ¬ (now - s.lastPreviewTime < 80 ∧ s.previewSkipCount + 1 < 4) := by
      rintro ⟨hlt, -⟩
      omega
    simp [schedulePreviewUpdate, hcond]
  · intro hlt hsk
    simp [schedulePreviewUpdate, And.intro hlt hsk]
  · intro hlt hsk
    have hcond : ¬ (now - s.lastPreviewTime < 80 ∧ s.previewSkipCount + 1 < 4) := by
      rintro ⟨-, hlt4⟩
      omega
    simp [schedulePreviewUpdate, hcond]
  · by_cases hb1 : (schedulePreviewUpdate true s t1).2 = true
    · exact Or.inl hb1
    · obtain ⟨e1, l1⟩ := sched_skip_step s t1 (by simpa using hb1)
      by_cases hb2 : (schedulePreviewUpdate true (schedulePreviewUpdate true s t1).1 t2).2 = true
      · exact Or.inr (Or.inl hb2)
      · obtain ⟨e2, l2⟩ := sched_skip_step _ t2 (by simpa using hb2)
        by_cases hb3 : (schedulePreviewUpdate true (schedulePreviewUpdate true
            (schedulePreviewUpdate true s t1).1 t2).1 t3).2 = true
        · exact Or.inr (Or.inr (Or.inl hb3))
        · obtain ⟨e3, l3⟩ := sched_skip_step _ t3 (by simpa using hb3)
          by_cases hb4 : (schedulePreviewUpdate true (schedulePreviewUpdate true
              (schedulePreviewUpdate true (schedulePreviewUpdate true s t1).1 t2).1 t3).1 t4).2 =
              true
          · exact Or.inr (Or.inr (Or.inr hb4))
          · obtain ⟨e4, l4⟩ := sched_skip_step _ t4 (by simpa using hb4)
            exfalso
            omega

/-- Witness for C8: immediate render after the window, a skip under it,
and a forced render on the fourth consecutive skip. -/
theorem C8_witness :
    schedulePreviewUpdate true ⟨0, 0⟩ 100 = (⟨100, 0⟩, true) ∧
    schedulePreviewUpdate true ⟨100, 0⟩ 150 = (⟨100, 1⟩, false) ∧
    schedulePreviewUpdate true ⟨100, 3⟩ 150 = (⟨150, 0⟩, true) := by
  have h1 := (C8_throttle ⟨0, 0⟩ 100 0 0 0 0).1 (by norm_num)
  have h2 := (C8_throttle ⟨100, 0⟩ 150 0 0 0 0).2.1 (by norm_num) (by norm_num)
  have h3 := (C8_throttle ⟨100, 3⟩ 150 0 0 0 0).2.2.1 (by norm_num) (by norm_num)
  exact ⟨h1, h2, h3⟩

/-- C9 counterexample: `updatePreview` recomputes the zoom-out limit
without re-clamping the zoom level.  Starting from the valid state
`zoom = -5, scale = 1/7, zoomOutLimit = -5` (a large source) and updating
the preview with a small 100x100 source in a 400x300 viewport, the new
limit is 0 but the zoom stays -5, violating `zoomOutLimit ≤ zoom`. -/
theorem C9_counterexample :
    viewportInv ⟨-5, 1 / 7, -5, true⟩ ∧
    ¬ viewportInv (updatePreviewState 100 100 400 300 ⟨-5, 1 / 7, -5, true⟩) := by
  constructor
  · refine ⟨by norm_num, by norm_num, ?_⟩
    norm_num [scaleOfZoom]
  · intro hinv
    have h : updatePreviewState 100 100 400 300 ⟨-5, 1 / 7, -5, true⟩ =
        ⟨-5, 1 / 7, 0, true⟩ := by
      norm_num [updatePreviewState, setZoomOutLimit, ceilDivNat]
    rw [h] at hinv
    have := hinv.1
    norm_num at this

/-- C9 amended: the invariant `zoomOutLimit ≤ zoom ≤ 2` with
`scale = zoom` for positive zoom and `1/(-zoom+2)` otherwise is preserved
by `UpdateZoom` (any zoom change) and by the viewport resize handler, but
`updatePreview` can break it by raising the limit above the current zoom
(see the counterexample). -/
theorem C9_zoom_resize_invariant (s : ViewportState) (z : ℤ) (imgW imgH vpW vpH : ℕ)
    (hs : viewportInv s) :
    viewportInv (updateZoomState s z) ∧ viewportInv (onResizeState imgW imgH vpW vpH s) := by
  obtain ⟨sz, ssc, sl, shi⟩ := s
  obtain ⟨h1, h2, h3⟩ := hs
  simp only at h1 h2 h3
  constructor
  · unfold updateZoomState
    by_cases hc : max sl (min 2 z) = sz ∧ shi = true
    · simp only [if_pos hc]
      exact ⟨h1, h2, h3⟩
    · simp only [if_neg hc]
      exact ⟨le_max_left _ _, max_le (le_trans h1 h2) (min_le_left _ _), rfl⟩
  · unfold onResizeState setZoomOutLimit
    simp only
    set L := min 0 (-(max (ceilDivNat imgW vpW) (ceilDivNat imgH vpH) : ℤ) + 2) with hLdef
    have hL0 : L ≤ 0 := min_le_left _ _
    by_cases hlt : sz < L
    · rw [if_pos hlt]
      unfold updateZoomState
      have hmin : min 2 L = L := min_eq_right (le_trans hL0 (by norm_num))
      have hnz : max L (min 2 L) = L := by
        rw [hmin, max_self]
      have hne : ¬ (max L (min 2 L) = sz ∧ shi = true) := by
        rintro ⟨heq, -⟩
        rw [hnz] at heq
        omega
      simp only [if_neg hne]
      refine ⟨?_, ?_, rfl⟩
      · simp only
        rw [hnz]
      · simp only
        rw [hnz]
        exact le_trans hL0 (by norm_num)
    · rw [if_neg hlt]
      exact ⟨le_of_not_lt hlt, h2, h3⟩

/-- Witness for the amended C9 from a concrete valid state. -/
theorem C9_witness :
    viewportInv (updateZoomState ⟨0, 1 / 2, -3, true⟩ 5) ∧
    viewportInv (onResizeState 10 10 4 3 ⟨0, 1 / 2, -3, true⟩) :=
  C9_zoom_resize_invariant ⟨0, 1 / 2, -3, true⟩ 5 10 10 4 3
    ⟨by norm_num, by norm_num, by norm_num [scaleOfZoom]⟩

end LuptonRGB
